import Mathlib

/-!
Shallow embedding of the pubsubsql Go client (`src/client.go`, package
`pubsubsql`).

The client is a single-threaded state machine: it writes length-framed
commands over TCP and demultiplexes the inbound frame stream into command
responses (matching request id), pub/sub events (request id 0) and stale
cursor batches (smaller request id).  We embed the `Client` struct as a Lean
structure and each Go method as a pure function.  I/O is made explicit:

* the inbound byte stream is a `List ReadEvent` (a frame, a transport error,
  or a read-deadline expiry), consumed from the front exactly where the Go
  code calls `read` / `readTimeout`;
* the outbound side of `write` is returned as an optional `(requestId,
  message)` pair — the frame that `writeHeaderAndMessage` put on the wire;
* JSON decoding (`encoding/json`, out of scope per the spec) is treated as a
  pure function from payload bytes to a typed record, so a `Payload` carries
  its raw bytes together with the decode outcome.

Go's `uint32` arithmetic on `requestId` is modelled on `Nat` with an explicit
`% 2^32`.  Go's `int` fields (`Rows`, `Fromrow`, `Torow`, `record`) are
modelled as `Int`.  A Go runtime panic (negative slice index) is modelled by
`Option`: `none` is a panic.
-/

namespace PubSubSql

/-- `responseData` (client.go:24): record unmarshalled from a JSON response. -/
structure ResponseData where
  Status : String := ""
  Msg : String := ""
  Action : String := ""
  Id : String := ""
  PubSubId : String := ""
  Rows : Int := 0
  Fromrow : Int := 0
  Torow : Int := 0
  Columns : List String := []
  Data : List (List String) := []
  deriving DecidableEq

/-- `responseData.reset` (client.go:37): zeroes every field except `Id`,
exactly as the Go method does (the Go code omits `Id` from the reset). -/
def ResponseData.resetData (r : ResponseData) : ResponseData :=
  { r with Status := "", Msg := "", Action := "", PubSubId := "",
           Rows := 0, Fromrow := 0, Torow := 0, Columns := [], Data := [] }

/-- Outcome of `json.Unmarshal` on a payload: a decoded record or the
parser's error message. -/
inductive Decoded where
  | ok (r : ResponseData)
  | fail (msg : String)
  deriving DecidableEq

/-- A wire payload: its raw bytes (as a string, since payloads are UTF-8
JSON text) together with the outcome of the assumed pure JSON decode on
those bytes. -/
structure Payload where
  raw : String
  decoded : Decoded
  deriving DecidableEq

/-- Modelled from the spec: the transport helper `netHelper` is not under
src/ (the spec marks the TCP transport as an out-of-scope collaborator,
§4.1).  `valid` says whether a live connection is set; `writeErr` is the
outcome the transport returns for a header+payload write (`none` =
success). -/
structure NetHelper where
  valid : Bool := false
  writeErr : Option String := none
  deriving DecidableEq

/-- One inbound event produced by the transport read path
(`readMessageTimeout`): a frame `(request_id, payload)`, a transport error,
or expiry of the read deadline. -/
inductive ReadEvent where
  | frame (requestId : Nat) (payload : Payload)
  | transportErr (msg : String)
  | timeout
  deriving DecidableEq

/-- `2^32`: modulus of Go's `uint32` request-id arithmetic. -/
def uint32Mod : Nat := 4294967296

/-- One Go map assignment `m[column] = ordinal` (`p = (ordinal, column)`):
the new binding shadows whatever was there. -/
def mapInsert (m : String → Option Nat) (p : Nat × String) : String → Option Nat :=
  fun k => if k = p.2 then some p.1 else m k

/-- The map built by the `for ordinal, column := range Columns` loop of
`setColumns` (client.go:313–316): start from an empty map and insert each
`(ordinal, column)` pair in order, later inserts overwriting earlier. -/
def buildColumnsMap (cols : List String) : String → Option Nat :=
  cols.enum.foldl mapInsert (fun _ => none)

/-- `Client` (client.go:49).  `columns` is the Go `map[string]int` as a
lookup function (`fun _ => none` is the nil map); `rawjson` is `none` for a
nil byte slice; `backlog` is the `list.List` of owned pub/sub payloads. -/
structure Client where
  address : String := ""
  rw : NetHelper := {}
  requestId : Nat := 0
  err : String := ""
  rawjson : Option String := none
  response : ResponseData := {}
  record : Int := 0
  columns : String → Option Nat := fun _ => none
  backlog : List Payload := []

/-- The Go zero value `Client{}` (note `record` starts at 0, not −1; it is
set to −1 by the first `reset`). -/
def Client.init : Client := {}

/-- `Connected` (client.go:88). -/
def Client.Connected (c : Client) : Bool := c.rw.valid

/-- `Ok` (client.go:93). -/
def Client.Ok (c : Client) : Bool := c.err == ""

/-- `Failed` (client.go:98). -/
def Client.Failed (c : Client) : Bool := !c.Ok

/-- `Error` (client.go:106). -/
def Client.Error (c : Client) : String := c.err

/-- `JSON` (client.go:148): `string(rawjson)`; `string(nil) = ""`. -/
def Client.JSON (c : Client) : String := c.rawjson.getD ""

/-- `Action` (client.go:156). -/
def Client.Action (c : Client) : String := c.response.Action

/-- `PubSubId` (client.go:164). -/
def Client.PubSubId (c : Client) : String := c.response.PubSubId

/-- `RowCount` (client.go:169). -/
def Client.RowCount (c : Client) : Int := c.response.Rows

/-- `HasColumn` (client.go:241): the `_, ok := this.columns[column]` map
probe. -/
def Client.HasColumn (c : Client) (column : String) : Bool :=
  (c.columns column).isSome

/-- `ColumnCount` (client.go:247). -/
def Client.ColumnCount (c : Client) : Nat := c.response.Columns.length

/-- `Columns` (client.go:252). -/
def Client.Columns (c : Client) : List String := c.response.Columns

/-- `resetError` (client.go:326). -/
def Client.resetError (c : Client) : Client := { c with err := "" }

/-- `reset` (client.go:319): clears `err`, the response record, `rawjson`
and sets `record := -1`.  Note it does NOT touch `columns`, `backlog`,
`requestId` or the transport. -/
def Client.reset (c : Client) : Client :=
  { c with err := "", response := c.response.resetData, rawjson := none,
           record := -1 }

/-- `setErrorString` (client.go:330): reset first, then store the error. -/
def Client.setErrorString (c : Client) (e : String) : Client :=
  { c.reset with err := e }

/-- `setError` (client.go:335): same as `setErrorString` on `err.Error()`. -/
def Client.setError (c : Client) (e : String) : Client :=
  c.setErrorString e

/-- `setColumns` (client.go:309): rebuild the name→ordinal map only when the
decoded `Columns` list is non-empty. -/
def Client.setColumns (c : Client) : Client :=
  if c.response.Columns.length = 0 then c
  else { c with columns := buildColumnsMap c.response.Columns }

/-- `unmarshalJSON` (client.go:294): store the raw bytes, decode into the
response, fail on a parse error, fail with the server's `msg` when
`Status ≠ "ok"` (via `setErrorString`, which resets first), otherwise
rebuild the column map and succeed.

`json.Unmarshal` merges into the existing record, but every call site
resets the response first, and the only field `reset` leaves behind (`Id`)
has no accessor; so the decode is modelled as replacement. -/
def Client.unmarshalJSON (c : Client) (p : Payload) : Client × Bool :=
  let c := { c with rawjson := some p.raw }
  match p.decoded with
  | Decoded.fail e => (c.setError e, false)
  | Decoded.ok r =>
    let c := { c with response := r }
    if c.response.Status ≠ "ok" then (c.setErrorString c.response.Msg, false)
    else (c.setColumns, true)

/-- `ValueByOrdinal` (client.go:230).  Go panics on a negative slice index:
the panic is `none`.  The Go guards are `record < 0 || record >= len(Data)`
and `ordinal >= len(Data[record])`; a negative `ordinal` slips past both
and hits `Data[record][ordinal]`. -/
def Client.ValueByOrdinal (c : Client) (ordinal : Int) : Option String :=
  if c.record < 0 ∨ (c.response.Data.length : Int) ≤ c.record then some ""
  else
    let row := c.response.Data.getD c.record.toNat []
    if (row.length : Int) ≤ ordinal then some ""
    else if ordinal < 0 then none
    else some (row.getD ordinal.toNat "")

/-- `Value` (client.go:219): map lookup, `""` when the name is unknown,
otherwise delegate to `ValueByOrdinal`. -/
def Client.Value (c : Client) (column : String) : Option String :=
  match c.columns column with
  | none => some ""
  | some ordinal => c.ValueByOrdinal (ordinal : Int)

/-- `write` (client.go:339): increment `requestId` (uint32 wrap) FIRST, then
fail with "Not connected" on an invalid transport, then attempt the frame
write.  The third component is the frame that went on the wire (`none` when
nothing was written). -/
def Client.write (c : Client) (message : String) :
    Client × Bool × Option (Nat × String) :=
  let c := { c with requestId := (c.requestId + 1) % uint32Mod }
  if !c.rw.valid then (c.setErrorString "Not connected", false, none)
  else
    match c.rw.writeErr with
    | some e => (c.setError e, false, none)
    | none => (c, true, some (c.requestId, message))

/-- `Disconnect` (client.go:80): best-effort `write "close"`, then `reset`
(after the write, since the write may set an error), then close the socket
(modelled from the spec: closing invalidates the transport).  Returns the
frame the close attempt put on the wire, if any. -/
def Client.Disconnect (c : Client) : Client × Option (Nat × String) :=
  let w := c.write "close"
  let c := w.1.reset
  ({ c with rw := { c.rw with valid := false } }, w.2.2)

/-- `Connect` (client.go:67): store the address, `Disconnect`, then dial.
The dial outcome is a parameter (`none` = success, `some e` = the dial
error); on success the transport becomes a fresh valid helper.  Returns the
frame the embedded `Disconnect` put on the wire, if any. -/
def Client.Connect (c : Client) (address : String) (dialErr : Option String) :
    Client × Bool × Option (Nat × String) :=
  let c := { c with address := address }
  let d := c.Disconnect
  match dialErr with
  | some e => (d.1.setError e, false, d.2)
  | none => ({ d.1 with rw := { valid := true, writeErr := none } }, true, d.2)

/-- The read loop of `Execute` (client.go:117–142).  Each iteration resets,
reads one frame with the long (180 s) deadline — `read` maps an invalid
transport to "Not connected" and a deadline expiry to "Read timed out" —
then demultiplexes on the frame's request id: equal = our response
(unmarshal and return), 0 = pub/sub (copy payload, push on the backlog,
continue), smaller = stale batch (reset and continue), greater = fatal
"protocol error invalid requestId".  An exhausted event list is a silent
server, i.e. a deadline expiry. -/
def Client.executeLoop : Client → List ReadEvent → Client × List ReadEvent × Bool
  | c, [] =>
    let c := c.reset
    if !c.rw.valid then (c.setErrorString "Not connected", [], false)
    else (c.setErrorString "Read timed out", [], false)
  | c, ev :: rest =>
    let c := c.reset
    if !c.rw.valid then (c.setErrorString "Not connected", ev :: rest, false)
    else
      match ev with
      | ReadEvent.timeout => (c.setErrorString "Read timed out", rest, false)
      | ReadEvent.transportErr e => (c.setErrorString e, rest, false)
      | ReadEvent.frame rid p =>
        if rid = c.requestId then
          let r := c.unmarshalJSON p
          (r.1, rest, r.2)
        else if rid = 0 then
          Client.executeLoop { c with backlog := c.backlog ++ [p] } rest
        else if rid < c.requestId then
          Client.executeLoop c.reset rest
        else
          (c.setErrorString "protocol error invalid requestId", rest, false)

/-- `Execute` (client.go:112): reset, write the command (consuming a fresh
request id), and on write success run the read loop.  Also returns the
remaining input, and the frame the write put on the wire. -/
def Client.Execute (c : Client) (command : String) (input : List ReadEvent) :
    Client × List ReadEvent × Bool × Option (Nat × String) :=
  let c := c.reset
  let w := c.write command
  if w.2.1 then
    let r := w.1.executeLoop input
    (r.1, r.2.1, r.2.2, w.2.2)
  else (w.1, input, false, w.2.2)

/-- `popBacklog` (client.go:284): remove and return the front element, or
`none` (Go nil) when the backlog is empty. -/
def Client.popBacklog (c : Client) : Client × Option Payload :=
  match c.backlog with
  | [] => (c, none)
  | p :: rest => ({ c with backlog := rest }, some p)

/-- The per-iteration pre-read phase of `NextRow` (client.go:180–199): the
`for this.Ok()` guard, the empty-result-set checks, the `record++`
in-batch advance, the end-of-result-set clamp, and otherwise a request to
fetch the next batch (after `reset`). -/
inductive RowStep where
  | done (c : Client) (b : Bool)
  | fetch (c : Client)

/-- The decision part of one `NextRow` loop iteration, before any read. -/
def Client.nextRowStep (c : Client) : RowStep :=
  if !c.Ok then RowStep.done c false
  else if c.response.Rows = 0 then RowStep.done c false
  else if c.response.Fromrow = 0 ∨ c.response.Torow = 0 then RowStep.done c false
  else
    let c := { c with record := c.record + 1 }
    if c.record ≤ c.response.Torow - c.response.Fromrow then RowStep.done c true
    else if c.response.Rows = c.response.Torow then
      RowStep.done { c with record := c.record - 1 } false
    else RowStep.fetch c.reset

/-- The loop of `NextRow` (client.go:179–215).  When the pre-read phase asks
for another batch, read one frame with the long deadline; a frame with a
non-zero request id different from the current one is the "protocol error"
case; otherwise unmarshal it (result ignored, as in the Go code — the next
iteration's `Ok` guard catches a failure) and repeat. -/
def Client.nextRowLoop : Client → List ReadEvent → Client × List ReadEvent × Bool
  | c, [] =>
    match c.nextRowStep with
    | RowStep.done c b => (c, [], b)
    | RowStep.fetch c =>
      if !c.rw.valid then (c.setErrorString "Not connected", [], false)
      else (c.setErrorString "Read timed out", [], false)
  | c, ev :: rest =>
    match c.nextRowStep with
    | RowStep.done c b => (c, ev :: rest, b)
    | RowStep.fetch c =>
      if !c.rw.valid then (c.setErrorString "Not connected", ev :: rest, false)
      else
        match ev with
        | ReadEvent.timeout => (c.setErrorString "Read timed out", rest, false)
        | ReadEvent.transportErr e => (c.setErrorString e, rest, false)
        | ReadEvent.frame rid p =>
          if 0 < rid ∧ rid ≠ c.requestId then
            (c.setErrorString "protocol error", rest, false)
          else
            Client.nextRowLoop (c.unmarshalJSON p).1 rest

/-- `NextRow` (client.go:179). -/
def Client.NextRow (c : Client) (input : List ReadEvent) :
    Client × List ReadEvent × Bool :=
  c.nextRowLoop input

/-- The pre-read phase of one `WaitForPubSub` iteration (client.go:264–269):
reset, pop the backlog, and yield the popped payload only when
`len(bytes) > 0`; an empty backlog — or a popped zero-length payload, which
is lost — falls through to the timed read. -/
inductive WaitPop where
  | yield (c : Client) (p : Payload)
  | readOn (c : Client)

/-- The decision part of one `WaitForPubSub` loop iteration. -/
def Client.waitPop (c : Client) : WaitPop :=
  let c := c.reset
  let pb := c.popBacklog
  match pb.2 with
  | some p => if 0 < p.raw.length then WaitPop.yield pb.1 p else WaitPop.readOn pb.1
  | none => WaitPop.readOn pb.1

/-- The loop of `WaitForPubSub` (client.go:263–280).  After the backlog
phase, read one frame with the caller's timeout: a deadline expiry returns
`false` WITHOUT setting an error (`readTimeout` reports it as a non-error);
a transport error sets `err`; a frame with request id 0 is unmarshalled and
returned; any other frame (abandoned cursor traffic) is ignored and the
loop retries. -/
def Client.waitLoop : Client → List ReadEvent → Client × List ReadEvent × Bool
  | c, [] =>
    match c.waitPop with
    | WaitPop.yield c p =>
      let r := c.unmarshalJSON p
      (r.1, [], r.2)
    | WaitPop.readOn c =>
      if !c.rw.valid then (c.setErrorString "Not connected", [], false)
      else (c, [], false)
  | c, ev :: rest =>
    match c.waitPop with
    | WaitPop.yield c p =>
      let r := c.unmarshalJSON p
      (r.1, ev :: rest, r.2)
    | WaitPop.readOn c =>
      if !c.rw.valid then (c.setErrorString "Not connected", ev :: rest, false)
      else
        match ev with
        | ReadEvent.timeout => (c, rest, false)
        | ReadEvent.transportErr e => (c.setErrorString e, rest, false)
        | ReadEvent.frame rid p =>
          if rid = 0 then
            let r := c.unmarshalJSON p
            (r.1, rest, r.2)
          else Client.waitLoop c rest

/-- `WaitForPubSub` (client.go:261).  The millisecond timeout value only
parameterises the transport deadline; in the model the deadline's expiry is
the `timeout` input event, so the numeric value is carried but unused. -/
def Client.WaitForPubSub (c : Client) (_timeoutMs : Int)
    (input : List ReadEvent) : Client × List ReadEvent × Bool :=
  c.waitLoop input

/-! ### Concrete fixtures

Payloads and client states used by the concrete scenarios (spec §8). -/

/-- A plain `{"status":"ok"}` response payload. -/
def pOkPlain : Payload := { raw := "jp", decoded := Decoded.ok { Status := "ok" } }

/-- The S6 payload `{"status":"err","msg":"syntax error"}` (spec §8), with an
action and a pub/sub id also present in the decoded record. -/
def pErrMsg : Payload :=
  { raw := "je",
    decoded := Decoded.ok { Status := "err", Msg := "syntax error",
                            Action := "status", PubSubId := "psid" } }

/-- A one-row, one-column `select` response with column list `["a"]`. -/
def pCols : Payload :=
  { raw := "jc",
    decoded := Decoded.ok { Status := "ok", Action := "select", Rows := 1,
                            Fromrow := 1, Torow := 1, Columns := ["a"],
                            Data := [["v"]] } }

/-- A zero-length payload (a frame whose `MessageSize` is 0).  The JSON
decoder fails on empty input. -/
def pEmptyRaw : Payload :=
  { raw := "", decoded := Decoded.fail "unexpected end of JSON input" }

/-- A pub/sub event payload with pub/sub id "A". -/
def pPubA : Payload :=
  { raw := "jA",
    decoded := Decoded.ok { Status := "ok", Action := "insert", PubSubId := "A" } }

/-- A pub/sub event payload with pub/sub id "B". -/
def pPubB : Payload :=
  { raw := "jB",
    decoded := Decoded.ok { Status := "ok", Action := "insert", PubSubId := "B" } }

/-- First batch of the S2 multi-batch result set: `rows = 3`,
`fromrow = 1`, `torow = 2`. -/
def pBatchA : Payload :=
  { raw := "ja",
    decoded := Decoded.ok { Status := "ok", Action := "select", Rows := 3,
                            Fromrow := 1, Torow := 2, Columns := ["a"],
                            Data := [["r1"], ["r2"]] } }

/-- Second batch of the S2 multi-batch result set: `rows = 3`,
`fromrow = 3`, `torow = 3`. -/
def pBatchB : Payload :=
  { raw := "jb",
    decoded := Decoded.ok { Status := "ok", Action := "select", Rows := 3,
                            Fromrow := 3, Torow := 3, Columns := ["a"],
                            Data := [["r3"]] } }

/-- A freshly connected client: zero-value client after a successful
`Connect`.  Its `requestId` is already 1 — consumed by the best-effort
`close` inside `Connect`'s `Disconnect`, which was not written because the
transport was not yet valid. -/
def connectedClient : Client := (Client.init.Connect "host:7777" none).1

/-- The client after executing the S2 select and receiving batch A (the
response to request id 2, the first id this client puts on the wire). -/
def cursorClient : Client :=
  (connectedClient.Execute "select" [ReadEvent.frame 2 pBatchA]).1

/-- `cursorClient` after two successful `NextRow` calls: positioned on the
last row of batch A, so the next `NextRow` must fetch batch B. -/
def cursorClientEnd : Client := { cursorClient with record := 1 }

/-- A connected client whose transport fails the next write (e.g. the peer
closed the socket). -/
def brokenClient : Client :=
  { connectedClient with rw := { valid := true, writeErr := some "broken pipe" } }

/-- A connected client with two non-empty pub/sub payloads backlogged. -/
def backloggedClient : Client :=
  { connectedClient with backlog := [pPubA, pPubB] }

/-- A connected client whose backlog starts with a zero-length payload. -/
def emptyHeadClient : Client :=
  { connectedClient with backlog := [pEmptyRaw, pPubA] }

/-- A client state holding one data row, used to exhibit the negative-
ordinal panic of `ValueByOrdinal`. -/
def rowClient : Client :=
  { Client.init with
    record := 0,
    response := { Status := "ok", Columns := ["a"], Data := [["x"]] } }

/-! ### Helper lemmas -/

@[simp] theorem resetData_idem (r : ResponseData) :
    r.resetData.resetData = r.resetData := rfl

@[simp] theorem reset_requestId (c : Client) :
    c.reset.requestId = c.requestId := rfl

@[simp] theorem reset_rw (c : Client) : c.reset.rw = c.rw := rfl

@[simp] theorem reset_backlog (c : Client) : c.reset.backlog = c.backlog := rfl

@[simp] theorem reset_columns (c : Client) : c.reset.columns = c.columns := rfl

@[simp] theorem reset_err (c : Client) : c.reset.err = "" := rfl

@[simp] theorem reset_record (c : Client) : c.reset.record = (-1 : Int) := rfl

@[simp] theorem reset_idem (c : Client) : c.reset.reset = c.reset := rfl

@[simp] theorem setErrorString_requestId (c : Client) (e : String) :
    (c.setErrorString e).requestId = c.requestId := rfl

@[simp] theorem setErrorString_rw (c : Client) (e : String) :
    (c.setErrorString e).rw = c.rw := rfl

@[simp] theorem setErrorString_backlog (c : Client) (e : String) :
    (c.setErrorString e).backlog = c.backlog := rfl

@[simp] theorem setErrorString_err (c : Client) (e : String) :
    (c.setErrorString e).err = e := rfl

@[simp] theorem setColumns_requestId (c : Client) :
    c.setColumns.requestId = c.requestId := by
  unfold Client.setColumns; split <;> rfl

@[simp] theorem setColumns_rw (c : Client) : c.setColumns.rw = c.rw := by
  unfold Client.setColumns; split <;> rfl

@[simp] theorem setColumns_backlog (c : Client) :
    c.setColumns.backlog = c.backlog := by
  unfold Client.setColumns; split <;> rfl

@[simp] theorem unmarshalJSON_requestId (c : Client) (p : Payload) :
    (c.unmarshalJSON p).1.requestId = c.requestId := by
  unfold Client.unmarshalJSON
  cases p.decoded <;> simp [Client.setError]
  split <;> simp

@[simp] theorem unmarshalJSON_rw (c : Client) (p : Payload) :
    (c.unmarshalJSON p).1.rw = c.rw := by
  unfold Client.unmarshalJSON
  cases p.decoded <;> simp [Client.setError]
  split <;> simp

@[simp] theorem unmarshalJSON_backlog (c : Client) (p : Payload) :
    (c.unmarshalJSON p).1.backlog = c.backlog := by
  unfold Client.unmarshalJSON
  cases p.decoded <;> simp [Client.setError]
  split <;> simp

/-- `executeLoop` only looks at the reset image of its client (its first
action is `reset`), so clients with equal resets run identically. -/
theorem executeLoop_congr {a b : Client} (h : a.reset = b.reset)
    (input : List ReadEvent) :
    Client.executeLoop a input = Client.executeLoop b input := by
  cases input <;> simp only [Client.executeLoop] <;> rw [h]

/-- The read loop never touches the request-id counter. -/
theorem executeLoop_requestId (input : List ReadEvent) :
    ∀ c : Client, (Client.executeLoop c input).1.requestId = c.requestId := by
  induction input with
  | nil => intro c; simp only [Client.executeLoop]; split <;> simp
  | cons ev rest ih =>
      intro c
      cases ev with
      | timeout => simp only [Client.executeLoop]; split <;> simp
      | transportErr e => simp only [Client.executeLoop]; split <;> simp
      | frame rid p =>
          simp only [Client.executeLoop]
          split
          · simp
          · split
            · simp
            · split
              · rw [ih]; simp
              · split
                · rw [ih]; simp
                · simp

/-- Pub/sub frames read during `execute` are appended, in arrival order, to
the back of the backlog, and the loop goes on reading. -/
theorem executeLoop_backlog_append (ps : List Payload) :
    ∀ (c : Client), c.rw.valid = true → c.requestId ≠ 0 →
    ∀ rest : List ReadEvent,
    Client.executeLoop c (ps.map (fun p => ReadEvent.frame 0 p) ++ rest) =
      Client.executeLoop { c with backlog := c.backlog ++ ps } rest := by
  induction ps with
  | nil =>
      intro c hv h0 rest
      have hc : ({ c with backlog := c.backlog ++ [] } : Client) = c := by
        cases c; simp
      rw [hc]; simp
  | cons p ps ih =>
      intro c hv h0 rest
      have h0' : ¬ (0 = c.requestId) := fun hh => h0 hh.symm
      simp only [List.map_cons, List.cons_append, Client.executeLoop, hv,
        reset_rw, Bool.not_true, Bool.false_eq_true, if_false,
        reset_requestId, reset_backlog, h0', ite_true, ite_false, if_true,
        if_false, List.append_eq]
      rw [ih _ (by simp [hv]) (by simp [h0])]
      refine executeLoop_congr ?_ rest
      cases c
      simp [Client.reset, List.append_assoc]

@[simp] theorem reset_record_set (c : Client) (x : Int) :
    ({ c with record := x } : Client).reset = c.reset := rfl

/-! ### Claims -/

/-- Claim C1, counterexample.  On the S6 payload
`{"status":"err","msg":"syntax error","action":"status","pubsubid":"psid"}`,
`unmarshalJSON` does return false with `err = "syntax error"` — but, contrary
to the claim, the decoded record is NOT still stored: `setErrorString`
resets the client before setting `err`, so `Action()` returns `""` instead
of the decoded `"status"`, and `PubSubId()` returns `""` instead of
`"psid"`. -/
theorem claim_C1_counterexample :
    (Client.init.unmarshalJSON pErrMsg).2 = false ∧
    (Client.init.unmarshalJSON pErrMsg).1.err = "syntax error" ∧
    (Client.init.unmarshalJSON pErrMsg).1.Action = "" ∧
    (Client.init.unmarshalJSON pErrMsg).1.Action ≠ "status" ∧
    (Client.init.unmarshalJSON pErrMsg).1.PubSubId ≠ "psid" := by
  decide

/-- Claim C1, amended.  When a payload decodes successfully but its status
is not "ok", the operation fails with the response's `msg` as the error
string; however the decoded record is NOT retained: `setErrorString` resets
the client first, so the response record, the raw JSON and the row cursor
are all cleared (`action`, `pub_sub_id`, `msg`, `json()` all read as empty
afterwards). -/
theorem claim_C1_amended (c : Client) (p : Payload) (r : ResponseData)
    (hd : p.decoded = Decoded.ok r) (hs : r.Status ≠ "ok") :
    (c.unmarshalJSON p).2 = false ∧
    (c.unmarshalJSON p).1.err = r.Msg ∧
    (c.unmarshalJSON p).1.Action = "" ∧
    (c.unmarshalJSON p).1.PubSubId = "" ∧
    (c.unmarshalJSON p).1.response.Msg = "" ∧
    (c.unmarshalJSON p).1.JSON = "" ∧
    (c.unmarshalJSON p).1.record = -1 := by
  unfold Client.unmarshalJSON
  rw [hd]
  simp [hs, Client.setErrorString, Client.reset, ResponseData.resetData,
    Client.Action, Client.PubSubId, Client.JSON]

/-- Claim C1, witness for the amended theorem at the S6 payload. -/
theorem claim_C1_witness :
    (Client.init.unmarshalJSON pErrMsg).2 = false ∧
    (Client.init.unmarshalJSON pErrMsg).1.err = "syntax error" := by
  have h := claim_C1_amended Client.init pErrMsg
    { Status := "err", Msg := "syntax error", Action := "status",
      PubSubId := "psid" } rfl (by decide)
  exact ⟨h.1, h.2.1⟩

/-- Claim C2, counterexample.  After a successful decode with columns
`["a"]` followed by a `reset`, the claim says `has_column("a")` must return
false — but `reset` (client.go:319) never clears the `columns` map, so it
still returns true. -/
theorem claim_C2_counterexample :
    ((Client.init.unmarshalJSON pCols).1.reset).HasColumn "a" = true := by
  decide

/-- Claim C2, amended.  The column map reflects the most recent successful
decode whose column list is non-empty (a successful decode with an empty
column list leaves it untouched), and after a reset `value(name)` returns
`""` for every name because the row cursor is −1; but the map itself
survives the reset, so `has_column` may keep answering for the previous
result set. -/
theorem claim_C2_amended :
    (∀ c : Client, (c.reset).columns = c.columns) ∧
    (∀ (c : Client) (name : String), (c.reset).Value name = some "") ∧
    (∀ (c : Client) (p : Payload) (r : ResponseData),
      p.decoded = Decoded.ok r → r.Status = "ok" → r.Columns ≠ [] →
      ((c.unmarshalJSON p).1).columns = buildColumnsMap r.Columns) ∧
    (∀ (c : Client) (p : Payload) (r : ResponseData),
      p.decoded = Decoded.ok r → r.Status = "ok" → r.Columns = [] →
      ((c.unmarshalJSON p).1).columns = c.columns) := by
  refine ⟨fun c => rfl, ?_, ?_, ?_⟩
  · intro c name
    unfold Client.Value
    rw [reset_columns]
    cases h : c.columns name <;>
      simp [h, Client.ValueByOrdinal]
  · intro c p r hd hs hc
    unfold Client.unmarshalJSON
    rw [hd]
    simp [hs, Client.setColumns, hc]
  · intro c p r hd hs hc
    unfold Client.unmarshalJSON
    rw [hd]
    simp [hs, Client.setColumns, hc]

/-- Claim C2, witness for the amended theorem: after decoding `pCols`
(columns `["a"]`) the map is exactly the one built from `["a"]`, and after
a reset `value` returns `""`. -/
theorem claim_C2_witness :
    ((Client.init.unmarshalJSON pCols).1).columns = buildColumnsMap ["a"] ∧
    (((Client.init.unmarshalJSON pCols).1).reset).Value "a" = some "" ∧
    ((Client.init.unmarshalJSON pOkPlain).1).columns = Client.init.columns := by
  refine ⟨?_, claim_C2_amended.2.1 _ "a", ?_⟩
  · exact claim_C2_amended.2.2.1 Client.init pCols
      { Status := "ok", Action := "select", Rows := 1, Fromrow := 1,
        Torow := 1, Columns := ["a"], Data := [["v"]] } rfl rfl (by decide)
  · exact claim_C2_amended.2.2.2 Client.init pOkPlain { Status := "ok" }
      rfl rfl rfl

/-- Claim C4.  `value(name)` with an unknown column name does return `""`
(and, being a pure read, cannot alter `err`), and `value_by_ordinal` returns
`""` when `record` is out of range or the ordinal is too large — but for a
NEGATIVE ordinal with `record` in range the Go code reaches
`Data[record][ordinal]` and panics (modelled as `none`), contradicting its
own doc comment "If the column ordinal is out of range, ValueByOrdinal
returns an empty string": the code is wrong, not the claim. -/
theorem claim_C4_code_bug :
    rowClient.ValueByOrdinal (-1) = none ∧
    rowClient.ValueByOrdinal 0 = some "x" ∧
    rowClient.ValueByOrdinal 1 = some "" ∧
    rowClient.Value "absent" = some "" ∧
    ({ rowClient with record := 5 } : Client).ValueByOrdinal (-1) = some "" := by
  decide

/-- Claim C9, counterexample.  A second `Disconnect` is NOT a no-op: the
best-effort `write "close"` inside it increments the internal request-id
counter again (2 → 3 here), so the state after two calls differs from the
state after one. -/
theorem claim_C9_counterexample :
    ((connectedClient.Disconnect).1.Disconnect).1.requestId ≠
      (connectedClient.Disconnect).1.requestId := by
  decide

/-- Claim C9, amended.  Calling `disconnect` a second time leaves the whole
client state identical to the state after the first call EXCEPT the request
id counter, which the embedded `write "close"` increments once more (mod
2^32); the second close attempt writes nothing on the wire. -/
theorem claim_C9_amended (c : Client) :
    ((c.Disconnect).1.Disconnect).1 =
      { (c.Disconnect).1 with
        requestId := ((c.Disconnect).1.requestId + 1) % uint32Mod } ∧
    ((c.Disconnect).1.Disconnect).2 = none := by
  obtain ⟨addr, ⟨v, we⟩, rid, e, rj, resp, rec, cols, bl⟩ := c
  cases v <;> rcases we with _ | w <;>
    simp [Client.Disconnect, Client.write, Client.reset, Client.setErrorString,
      Client.setError, ResponseData.resetData]

/-- Claim C9, witness for the amended theorem at the freshly connected
client. -/
theorem claim_C9_witness :
    ((connectedClient.Disconnect).1.Disconnect).1 =
      { (connectedClient.Disconnect).1 with
        requestId :=
          ((connectedClient.Disconnect).1.requestId + 1) % uint32Mod } ∧
    ((connectedClient.Disconnect).1.Disconnect).2 = none :=
  claim_C9_amended connectedClient

/-- Claim C3, counterexample.  The first frame written on the wire does NOT
carry request id 1: on a fresh client, `Connect` runs `Disconnect`, whose
`write "close"` consumes id 1 without putting a frame on the wire (the
transport is not yet valid), so the first command goes out with id 2. -/
theorem claim_C3_counterexample :
    (Client.init.Connect "host:7777" none).2.2 = none ∧
    (connectedClient.Execute "cmd" [ReadEvent.frame 2 pOkPlain]).2.2.2 =
      some (2, "cmd") ∧
    (connectedClient.Execute "cmd" [ReadEvent.frame 2 pOkPlain]).2.2.2 ≠
      some (1, "cmd") := by
  decide

/-- Claim C3, amended.  Request ids on the wire are strictly increasing,
but the sequence starts at 2 for a freshly connected client (id 1 is
consumed, unsent, by the best-effort close inside `Connect`): every
`execute` puts `requestId + 1 (mod 2^32)` on the wire and leaves the
counter there, so after a successful `execute` the next wire id is the
previous id plus one — as the concrete chain 2, 3 shows. -/
theorem claim_C3_amended :
    (∀ (c : Client) (cmd : String) (input : List ReadEvent),
      c.rw.valid = true → c.rw.writeErr = none →
      (c.Execute cmd input).2.2.2 =
        some ((c.requestId + 1) % uint32Mod, cmd) ∧
      (c.Execute cmd input).1.requestId = (c.requestId + 1) % uint32Mod) ∧
    ((connectedClient.Execute "c1" [ReadEvent.frame 2 pOkPlain]).2.2.2 =
        some (2, "c1") ∧
      ((connectedClient.Execute "c1" [ReadEvent.frame 2 pOkPlain]).1.Execute
          "c2" [ReadEvent.frame 3 pOkPlain]).2.2.2 = some (3, "c2")) := by
  constructor
  · intro c cmd input hv hw
    unfold Client.Execute Client.write
    simp [hv, hw, executeLoop_requestId]
  · decide

/-- Claim C3, witness for the amended theorem at the freshly connected
client (`requestId = 1`): `Execute` puts id 2 on the wire and leaves the
counter at 2. -/
theorem claim_C3_witness :
    (connectedClient.Execute "cmd" [ReadEvent.frame 2 pOkPlain]).2.2.2 =
      some (2, "cmd") ∧
    (connectedClient.Execute "cmd" [ReadEvent.frame 2 pOkPlain]).1.requestId
      = 2 := by
  have h := claim_C3_amended.1 connectedClient "cmd"
    [ReadEvent.frame 2 pOkPlain] rfl rfl
  exact ⟨h.1, h.2⟩

/-- Claim C10.  `write` increments the request-id counter before checking
the connection, so an id is consumed on every attempt: when the transport
is invalid ("Not connected"), when the transport write itself fails, and by
the best-effort close inside `Disconnect`.  Consequently a fresh `Connect`
leaves the counter at 1 with nothing written, and the first command goes
out with request id 2, not 1. -/
theorem claim_C10_confirmed :
    (∀ (c : Client) (m : String),
      (c.write m).1.requestId = (c.requestId + 1) % uint32Mod) ∧
    (∀ (c : Client) (m : String), c.rw.valid = false →
      (c.write m).2.1 = false ∧ (c.write m).2.2 = none ∧
      (c.write m).1.err = "Not connected" ∧
      (c.write m).1.requestId = (c.requestId + 1) % uint32Mod) ∧
    (∀ (c : Client) (m e : String), c.rw.valid = true →
      c.rw.writeErr = some e →
      (c.write m).2.1 = false ∧ (c.write m).2.2 = none ∧
      (c.write m).1.err = e ∧
      (c.write m).1.requestId = (c.requestId + 1) % uint32Mod) ∧
    (∀ c : Client,
      ((c.Disconnect).1).requestId = (c.requestId + 1) % uint32Mod) ∧
    ((Client.init.Connect "host:7777" none).1.requestId = 1 ∧
      (Client.init.Connect "host:7777" none).2.2 = none ∧
      (connectedClient.Execute "cmd" [ReadEvent.frame 2 pOkPlain]).2.2.2 =
        some (2, "cmd")) := by
  refine ⟨?_, ?_, ?_, ?_, by decide⟩
  · intro c m
    obtain ⟨addr, ⟨v, we⟩, rid, e, rj, resp, rec, cols, bl⟩ := c
    cases v <;> rcases we with _ | w <;>
      simp [Client.write, Client.setError]
  · intro c m hv
    simp [Client.write, hv]
  · intro c m e hv hw
    simp [Client.write, hv, hw, Client.setError]
  · intro c
    obtain ⟨addr, ⟨v, we⟩, rid, e, rj, resp, rec, cols, bl⟩ := c
    cases v <;> rcases we with _ | w <;>
      simp [Client.Disconnect, Client.write, Client.reset,
        Client.setErrorString, Client.setError]

/-- Claim C10, witness: on the zero-value client (not connected), a write
attempt fails with "Not connected", writes nothing, and still consumes
request id 1. -/
theorem claim_C10_witness :
    (Client.init.write "cmd").2.1 = false ∧
    (Client.init.write "cmd").2.2 = none ∧
    (Client.init.write "cmd").1.err = "Not connected" ∧
    (Client.init.write "cmd").1.requestId = (0 + 1) % uint32Mod ∧
    (brokenClient.write "cmd").2.1 = false ∧
    (brokenClient.write "cmd").2.2 = none ∧
    (brokenClient.write "cmd").1.err = "broken pipe" ∧
    (brokenClient.write "cmd").1.requestId =
      (brokenClient.requestId + 1) % uint32Mod := by
  have h := claim_C10_confirmed.2.1 Client.init "cmd" rfl
  have h2 := claim_C10_confirmed.2.2.1 brokenClient "cmd" "broken pipe"
    rfl rfl
  exact ⟨h.1, h.2.1, h.2.2.1, h.2.2.2, h2.1, h2.2.1, h2.2.2.1, h2.2.2.2⟩

/-- Claim C6.  During `execute`, a frame whose request id exceeds the
current one stops the read loop: the result is false with
`error() = "protocol error invalid requestId"` and no further events are
consumed; a frame with a smaller (non-zero — id 0 is the pub/sub case)
request id is silently discarded and the loop continues on the remaining
input as if the frame had never arrived. -/
theorem claim_C6_confirmed :
    (∀ (c : Client) (rid : Nat) (p : Payload) (rest : List ReadEvent),
      c.rw.valid = true → c.requestId < rid →
      (c.executeLoop (ReadEvent.frame rid p :: rest)).2.2 = false ∧
      (c.executeLoop (ReadEvent.frame rid p :: rest)).1.err =
        "protocol error invalid requestId" ∧
      (c.executeLoop (ReadEvent.frame rid p :: rest)).2.1 = rest) ∧
    (∀ (c : Client) (rid : Nat) (p : Payload) (rest : List ReadEvent),
      c.rw.valid = true → 0 < rid → rid < c.requestId →
      c.executeLoop (ReadEvent.frame rid p :: rest) =
        c.executeLoop rest) := by
  constructor
  · intro c rid p rest hv hgt
    have h1 : ¬ (rid = c.requestId) := by omega
    have h2 : ¬ (rid = 0) := by omega
    have h3 : ¬ (rid < c.requestId) := by omega
    simp [Client.executeLoop, hv, h1, h2, h3]
  · intro c rid p rest hv h0 hlt
    have h1 : ¬ (rid = c.requestId) := by omega
    have h2 : ¬ (rid = 0) := by omega
    have hstep : c.executeLoop (ReadEvent.frame rid p :: rest) =
        Client.executeLoop c.reset.reset rest := by
      simp [Client.executeLoop, hv, h1, h2, hlt]
    rw [hstep]
    exact executeLoop_congr (by simp) rest

/-- Claim C6, witness: with current id 3 (the spec's S5 scenario), a frame
with id 99 aborts with the protocol error, and a stale frame with id 1 is
discarded — the loop then consumes the matching id-3 response. -/
theorem claim_C6_witness :
    (({ connectedClient with requestId := 3 } : Client).executeLoop
        [ReadEvent.frame 99 pOkPlain]).2.2 = false ∧
    (({ connectedClient with requestId := 3 } : Client).executeLoop
        [ReadEvent.frame 99 pOkPlain]).1.err =
      "protocol error invalid requestId" ∧
    ({ connectedClient with requestId := 3 } : Client).executeLoop
        (ReadEvent.frame 1 pOkPlain :: [ReadEvent.frame 3 pOkPlain]) =
      ({ connectedClient with requestId := 3 } : Client).executeLoop
        [ReadEvent.frame 3 pOkPlain] := by
  have ha := claim_C6_confirmed.1 { connectedClient with requestId := 3 }
    99 pOkPlain [] rfl (by decide)
  have hb := claim_C6_confirmed.2 { connectedClient with requestId := 3 }
    1 pOkPlain [ReadEvent.frame 3 pOkPlain] rfl (by decide) (by decide)
  exact ⟨ha.1, ha.2.1, hb⟩

/-- Claim C8.  With an empty backlog, a `wait_for_pub_sub` whose read ends
in a deadline expiry returns false with `err` left empty (the state is just
the reset client, so `ok()` is true): a pub/sub timeout is not an error.
By contrast, the same expiry inside `execute`'s read loop (the long 180 s
deadline) is an error: false with `err = "Read timed out"`. -/
theorem claim_C8_confirmed :
    (∀ (c : Client) (t : Int) (rest : List ReadEvent),
      c.backlog = [] → c.rw.valid = true →
      c.WaitForPubSub t (ReadEvent.timeout :: rest) = (c.reset, rest, false) ∧
      (c.WaitForPubSub t (ReadEvent.timeout :: rest)).1.err = "" ∧
      (c.WaitForPubSub t (ReadEvent.timeout :: rest)).1.Ok = true) ∧
    (∀ (c : Client) (rest : List ReadEvent), c.rw.valid = true →
      (c.executeLoop (ReadEvent.timeout :: rest)).2.2 = false ∧
      (c.executeLoop (ReadEvent.timeout :: rest)).1.err =
        "Read timed out") := by
  constructor
  · intro c t rest hb hv
    have h : c.WaitForPubSub t (ReadEvent.timeout :: rest)
        = (c.reset, rest, false) := by
      simp [Client.WaitForPubSub, Client.waitLoop, Client.waitPop,
        Client.popBacklog, hb, hv]
    refine ⟨h, ?_, ?_⟩ <;> rw [h] <;> simp [Client.Ok]
  · intro c rest hv
    simp [Client.executeLoop, hv]

/-- Claim C8, witness: the spec's S7 scenario — no traffic within the
window on a connected, backlog-free client: false and `error() = ""`;
while `execute` hitting the deadline reports "Read timed out". -/
theorem claim_C8_witness :
    connectedClient.WaitForPubSub 50 [ReadEvent.timeout] =
      (connectedClient.reset, [], false) ∧
    (connectedClient.WaitForPubSub 50 [ReadEvent.timeout]).1.err = "" ∧
    (connectedClient.executeLoop [ReadEvent.timeout]).1.err =
      "Read timed out" := by
  have ha := claim_C8_confirmed.1 connectedClient 50 [] rfl rfl
  have hb := claim_C8_confirmed.2 connectedClient [] rfl
  exact ⟨ha.1, ha.2.1, hb.2⟩

/-- Claim C7.  `next_row` follows the cursor algorithm: (i) with `rows`,
`fromrow` or `torow` zero it returns false immediately and unchanged;
(ii) while the incremented `record` stays within `torow - fromrow` it
returns true having advanced `record`; (iii) when the batch is exhausted
and `rows = torow` it clamps `record` back (net state unchanged) and
returns false with `ok()` still true; (iv) otherwise it reads one more
frame, decodes it as the next batch, and repeats the loop on it. -/
theorem claim_C7_confirmed :
    (∀ (c : Client) (input : List ReadEvent), c.Ok = true →
      (c.response.Rows = 0 ∨ c.response.Fromrow = 0 ∨ c.response.Torow = 0) →
      c.NextRow input = (c, input, false)) ∧
    (∀ (c : Client) (input : List ReadEvent), c.Ok = true →
      c.response.Rows ≠ 0 → c.response.Fromrow ≠ 0 → c.response.Torow ≠ 0 →
      c.record + 1 ≤ c.response.Torow - c.response.Fromrow →
      c.NextRow input = ({ c with record := c.record + 1 }, input, true)) ∧
    (∀ (c : Client) (input : List ReadEvent), c.Ok = true →
      c.response.Rows ≠ 0 → c.response.Fromrow ≠ 0 → c.response.Torow ≠ 0 →
      ¬ (c.record + 1 ≤ c.response.Torow - c.response.Fromrow) →
      c.response.Rows = c.response.Torow →
      c.NextRow input = (c, input, false) ∧
      (c.NextRow input).1.Ok = true) ∧
    (∀ (c : Client) (rid : Nat) (p : Payload) (rest : List ReadEvent),
      c.Ok = true →
      c.response.Rows ≠ 0 → c.response.Fromrow ≠ 0 → c.response.Torow ≠ 0 →
      ¬ (c.record + 1 ≤ c.response.Torow - c.response.Fromrow) →
      c.response.Rows ≠ c.response.Torow →
      c.rw.valid = true → ¬ (0 < rid ∧ rid ≠ c.requestId) →
      c.NextRow (ReadEvent.frame rid p :: rest) =
        Client.nextRowLoop ((c.reset).unmarshalJSON p).1 rest) := by
  refine ⟨?_, ?_, ?_, ?_⟩
  · intro c input hOk hz
    have hstep : c.nextRowStep = RowStep.done c false := by
      unfold Client.nextRowStep
      rcases hz with h | h | h <;> simp [hOk, h]
    cases input <;> simp [Client.NextRow, Client.nextRowLoop, hstep]
  · intro c input hOk h1 h2 h3 h4
    have hstep : c.nextRowStep
        = RowStep.done { c with record := c.record + 1 } true := by
      unfold Client.nextRowStep
      simp [hOk, h1, h2, h3, h4]
    cases input <;> simp [Client.NextRow, Client.nextRowLoop, hstep]
  · intro c input hOk h1 h2 h3 h4 h5
    have heq : ({ c with record := c.record + 1 - 1 } : Client) = c := by
      cases c; simp
    have hstep : c.nextRowStep = RowStep.done c false := by
      unfold Client.nextRowStep
      simp [hOk, h1, h2, h3, h4, h5, heq]
    constructor
    · cases input <;> simp [Client.NextRow, Client.nextRowLoop, hstep]
    · cases input <;> simp [Client.NextRow, Client.nextRowLoop, hstep, hOk]
  · intro c rid p rest hOk h1 h2 h3 h4 h5 hv hfr
    have hstep : c.nextRowStep = RowStep.fetch c.reset := by
      unfold Client.nextRowStep
      simp [hOk, h1, h2, h3, h4, h5]
    simp [Client.NextRow, Client.nextRowLoop, hstep, hv, hfr]

/-- Claim C7, witness exercising all four branches on the S2 multi-batch
fixtures: no result set on the fresh client; an in-batch advance; the
end-of-result-set clamp after batch B; the fetch of batch B at the end of
batch A. -/
theorem claim_C7_witness :
    Client.init.NextRow [] = (Client.init, [], false) ∧
    cursorClient.NextRow [] =
      ({ cursorClient with record := cursorClient.record + 1 }, [], true) ∧
    (({ (connectedClient.Execute "select" [ReadEvent.frame 2 pBatchB]).1 with
        record := 0 } : Client).NextRow [] =
      (({ (connectedClient.Execute "select" [ReadEvent.frame 2 pBatchB]).1 with
        record := 0 } : Client), [], false)) ∧
    cursorClientEnd.NextRow [ReadEvent.frame 2 pBatchB] =
      Client.nextRowLoop ((cursorClientEnd.reset).unmarshalJSON pBatchB).1
        [] := by
  refine ⟨?_, ?_, ?_, ?_⟩
  · exact claim_C7_confirmed.1 Client.init [] rfl (Or.inl rfl)
  · exact claim_C7_confirmed.2.1 cursorClient [] (by decide) (by decide)
      (by decide) (by decide) (by decide)
  · exact (claim_C7_confirmed.2.2.1 _ [] (by decide) (by decide) (by decide)
      (by decide) (by decide) (by decide)).1
  · exact claim_C7_confirmed.2.2.2 cursorClientEnd 2 pBatchB [] (by decide)
      (by decide) (by decide) (by decide) (by decide) (by decide) rfl
      (by decide)

/-- Claim C5, counterexample.  A zero-length pub/sub payload breaks the
FIFO-before-reading-new-frames discipline: after an `execute` backlogs the
zero-length payload `pEmptyRaw` and then `pPubA` (in arrival order), a
single `wait_for_pub_sub` pops `pEmptyRaw`, sees `len(bytes) == 0`, drops
it, and falls through to reading a NEW frame — yielding the fresh `pPubB`
event (pub/sub id "B") while the older backlogged `pPubA` is still
queued. -/
theorem claim_C5_counterexample :
    (connectedClient.Execute "cmd"
        [ReadEvent.frame 0 pEmptyRaw, ReadEvent.frame 0 pPubA,
         ReadEvent.frame 2 pOkPlain]).1.backlog = [pEmptyRaw, pPubA] ∧
    ((connectedClient.Execute "cmd"
        [ReadEvent.frame 0 pEmptyRaw, ReadEvent.frame 0 pPubA,
         ReadEvent.frame 2 pOkPlain]).1.WaitForPubSub 50
        [ReadEvent.frame 0 pPubB]).1.PubSubId = "B" ∧
    ((connectedClient.Execute "cmd"
        [ReadEvent.frame 0 pEmptyRaw, ReadEvent.frame 0 pPubA,
         ReadEvent.frame 2 pOkPlain]).1.WaitForPubSub 50
        [ReadEvent.frame 0 pPubB]).1.backlog = [pPubA] ∧
    ((connectedClient.Execute "cmd"
        [ReadEvent.frame 0 pEmptyRaw, ReadEvent.frame 0 pPubA,
         ReadEvent.frame 2 pOkPlain]).1.WaitForPubSub 50
        [ReadEvent.frame 0 pPubB]).2.1 = [] := by
  decide

/-- Claim C5, amended.  During `execute`'s read loop every id-0 frame's
payload is copied and appended to the back of the backlog, in arrival
order, and the loop then consumes the matching response; a subsequent
`wait_for_pub_sub` yields the front backlogged payload without consuming
any input — PROVIDED that payload is non-empty.  A zero-length backlogged
payload is popped but not yielded (`len(bytes) > 0` fails): it is lost and
the call falls through to reading a new frame. -/
theorem claim_C5_amended :
    (∀ (c : Client) (ps : List Payload) (p : Payload) (r : ResponseData)
        (rest : List ReadEvent),
      c.rw.valid = true → c.requestId ≠ 0 →
      p.decoded = Decoded.ok r → r.Status = "ok" →
      (c.executeLoop (ps.map (fun q => ReadEvent.frame 0 q) ++
          ReadEvent.frame c.requestId p :: rest)).1.backlog =
        c.backlog ++ ps ∧
      (c.executeLoop (ps.map (fun q => ReadEvent.frame 0 q) ++
          ReadEvent.frame c.requestId p :: rest)).2.2 = true ∧
      (c.executeLoop (ps.map (fun q => ReadEvent.frame 0 q) ++
          ReadEvent.frame c.requestId p :: rest)).2.1 = rest) ∧
    (∀ (c : Client) (t : Int) (p : Payload) (bs : List Payload)
        (input : List ReadEvent),
      c.backlog = p :: bs → 0 < p.raw.length →
      c.WaitForPubSub t input =
        ((({ c.reset with backlog := bs } : Client).unmarshalJSON p).1, input,
          (({ c.reset with backlog := bs } : Client).unmarshalJSON p).2)) ∧
    (∀ (c : Client) (t : Int) (pz : Payload) (bs : List Payload)
        (p : Payload) (rest : List ReadEvent),
      c.backlog = pz :: bs → pz.raw.length = 0 → c.rw.valid = true →
      c.WaitForPubSub t (ReadEvent.frame 0 p :: rest) =
        ((({ c.reset with backlog := bs } : Client).unmarshalJSON p).1, rest,
          (({ c.reset with backlog := bs } : Client).unmarshalJSON p).2)) := by
  refine ⟨?_, ?_, ?_⟩
  · intro c ps p r rest hv h0 hd hs
    rw [executeLoop_backlog_append ps c hv h0
      (ReadEvent.frame c.requestId p :: rest)]
    have hstep :
        Client.executeLoop { c with backlog := c.backlog ++ ps }
          (ReadEvent.frame c.requestId p :: rest) =
        ((({ c with backlog := c.backlog ++ ps } : Client).reset.unmarshalJSON
            p).1, rest,
          (({ c with backlog := c.backlog ++ ps } : Client).reset.unmarshalJSON
            p).2) := by
      simp [Client.executeLoop, hv]
    rw [hstep]
    have hb : (({ c with backlog := c.backlog ++ ps } : Client).reset.unmarshalJSON
        p).1.backlog = c.backlog ++ ps := by
      rw [unmarshalJSON_backlog, reset_backlog]
    have ht : (({ c with backlog := c.backlog ++ ps } : Client).reset.unmarshalJSON
        p).2 = true := by
      unfold Client.unmarshalJSON
      rw [hd]
      simp [hs]
    exact ⟨hb, ht, rfl⟩
  · intro c t p bs input hb hp
    have hpop : c.waitPop = WaitPop.yield { c.reset with backlog := bs } p := by
      unfold Client.waitPop Client.popBacklog
      simp [hb, hp]
    cases input <;> simp [Client.WaitForPubSub, Client.waitLoop, hpop]
  · intro c t pz bs p rest hb hz hv
    have hpop : c.waitPop = WaitPop.readOn { c.reset with backlog := bs } := by
      unfold Client.waitPop Client.popBacklog
      simp [hb, hz]
    simp [Client.WaitForPubSub, Client.waitLoop, hpop, hv]

/-- Claim C5, witness exercising the three amended parts on concrete data:
an `execute` read loop that backlogs one pub/sub payload before its
response; a wait that yields the non-empty backlog head without touching
the input; and a wait that drops a popped zero-length payload and reads the
fresh frame instead. -/
theorem claim_C5_witness :
    ((connectedClient.executeLoop
        ([pPubA].map (fun q => ReadEvent.frame 0 q) ++
          ReadEvent.frame connectedClient.requestId pOkPlain ::
            [])).1.backlog = connectedClient.backlog ++ [pPubA]) ∧
    (backloggedClient.WaitForPubSub 50 [] =
      ((Client.unmarshalJSON
          ({ backloggedClient.reset with backlog := [pPubB] } : Client)
          pPubA).1, [],
        (Client.unmarshalJSON
          ({ backloggedClient.reset with backlog := [pPubB] } : Client)
          pPubA).2)) ∧
    (emptyHeadClient.WaitForPubSub 50 [ReadEvent.frame 0 pPubB] =
      ((Client.unmarshalJSON
          ({ emptyHeadClient.reset with backlog := [pPubA] } : Client)
          pPubB).1, [],
        (Client.unmarshalJSON
          ({ emptyHeadClient.reset with backlog := [pPubA] } : Client)
          pPubB).2)) := by
  refine ⟨?_, ?_, ?_⟩
  · exact (claim_C5_amended.1 connectedClient [pPubA] pOkPlain
      { Status := "ok" } [] rfl (by decide) rfl rfl).1
  · exact claim_C5_amended.2.1 backloggedClient 50 pPubA [pPubB] [] rfl
      (by decide)
  · exact claim_C5_amended.2.2 emptyHeadClient 50 pEmptyRaw [pPubA] pPubB []
      rfl rfl rfl

end PubSubSql
